import Mathlib

/-!
Shallow embedding of the TWin_edf2edfplus converter (src/edf2edfplus.py).

Python floats are modelled as rationals, Python lists as Lean lists, and
Python exceptions as Except values.  The string operations used by the
source (split on a single character, strip, int() and float() on plain
decimal literals) are modelled by structurally recursive helpers, so the
definitions are executable on concrete inputs.
-/

/-- Model of Python s.split(sep) for a single-character separator, acting
on the character list of the string. -/
def splitChar (sep : Char) : List Char → List (List Char)
  | [] => [[]]
  | c :: cs =>
    match splitChar sep cs with
    | [] => if c = sep then [[], []] else [[c]]
    | h :: t => if c = sep then [] :: h :: t else (c :: h) :: t

/-- Python s.split(sep), returning strings. -/
def pySplit (sep : Char) (s : String) : List String :=
  (splitChar sep s.toList).map String.mk

/-- Python str.strip(): remove leading and trailing whitespace. -/
def pyStrip (s : String) : String :=
  String.mk (((s.toList.dropWhile Char.isWhitespace).reverse.dropWhile
    Char.isWhitespace).reverse)

/-- Numeric value of a digit-character list, most significant digit first. -/
def digitsVal (l : List Char) : Nat :=
  l.foldl (fun acc c => acc * 10 + (c.toNat - 48)) 0

/-- Parse a nonempty all-digit character list; none otherwise. -/
def digitsToNat? (l : List Char) : Option Nat :=
  if l ≠ [] ∧ l.all Char.isDigit then some (digitsVal l) else none

/-- Model of Python int(s), restricted to optionally signed plain decimal
literals (the only shapes the converter feeds it); none where int() would
raise ValueError. -/
def pyIntStr? (s : String) : Option Int :=
  match (pyStrip s).toList with
  | '-' :: rest => (digitsToNat? rest).map (fun n => -(n : Int))
  | '+' :: rest => (digitsToNat? rest).map (fun n => (n : Int))
  | l => (digitsToNat? l).map (fun n => (n : Int))

/-- Model of Python float(s), restricted to optionally signed plain decimal
literals without an exponent; none where float() would raise ValueError. -/
def pyFloat? (s : String) : Option ℚ :=
  let stripped := (pyStrip s).toList
  let body : List Char :=
    match stripped with
    | '-' :: rest => rest
    | '+' :: rest => rest
    | l => l
  let sgn : ℚ :=
    match stripped with
    | '-' :: _ => -1
    | _ => 1
  match splitChar '.' body with
  | [ip] => (digitsToNat? ip).map (fun n => sgn * (n : ℚ))
  | [ip, fp] =>
    if (ip ≠ [] ∨ fp ≠ []) ∧ ip.all Char.isDigit ∧ fp.all Char.isDigit then
      some (sgn * ((digitsVal ip : ℚ) + (digitsVal fp : ℚ) / (10 : ℚ) ^ fp.length))
    else none
  | _ => none

/-- parse_time_to_seconds from edf2edfplus.py: split on a colon; with three
or more fields convert the first three with float() and combine; any
conversion failure, or fewer than three fields, yields 0.0 (the bare
except and the final return 0.0 of the source). -/
def parse_time_to_seconds (time_str : String) : ℚ :=
  match pySplit ':' time_str with
  | hs :: ms :: ss :: _ =>
    match pyFloat? hs, pyFloat? ms, pyFloat? ss with
    | some hours, some minutes, some seconds =>
      hours * 3600 + minutes * 60 + seconds
    | _, _, _ => 0
  | _ => 0

/-- Python format spec 0Nd applied to a natural number. -/
def padZeros (w : Nat) (n : Nat) : String :=
  String.mk (List.replicate (w - (Nat.toDigits 10 n).length) '0' ++ Nat.toDigits 10 n)

/-- Python format spec 0Nd applied to an integer; the sign counts toward
the width. -/
def formatIntPad (w : Nat) (x : Int) : String :=
  if x < 0 then "-" ++ padZeros (w - 1) x.natAbs else padZeros w x.toNat

/-- convert_edf_date_time from edf2edfplus.py: unpack DD.MM.YY and
HH.MM.SS (exactly three dot-separated fields each, or the tuple
unpacking raises and the function returns None), apply the century pivot
to the two-digit year, and format YYYYMMDD underscore HHMM; the seconds
field is never converted. -/
def convert_edf_date_time (date_str time_str : String) : Option String :=
  match pySplit '.' date_str with
  | [day, month, year] =>
    match pyIntStr? year, pyIntStr? month, pyIntStr? day with
    | some y, some m, some d =>
      let full_year : Int := if y < 50 then 2000 + y else 1900 + y
      let date_formatted := formatIntPad 4 full_year ++ formatIntPad 2 m ++ formatIntPad 2 d
      match pySplit '.' time_str with
      | [hour, minute, _second] =>
        match pyIntStr? hour, pyIntStr? minute with
        | some h, some mi =>
          some (date_formatted ++ "_" ++ formatIntPad 2 h ++ formatIntPad 2 mi)
        | _, _ => none
      | _ => none
    | _, _, _ => none
  | _ => none

/-- The filename assembly of generate_correct_filename from
edf2edfplus.py, for an already resolved patient id (the file reading and
the regex fallback for a missing patient id are outside this model). -/
def generate_correct_filename_core (patient_id date_str time_str : String) : Option String :=
  (convert_edf_date_time date_str time_str).map
    (fun dt => patient_id ++ "_" ++ dt ++ ".edf")

/-- One loaded spreadsheet event of load_excel_events: raw timestamp text,
absolute seconds of day, relative offset (present exactly when a
reference time was supplied), event label, and originating dataframe row
index stored for the status write-back. -/
structure Event where
  time : String
  time_seconds : ℚ
  relative_time : Option ℚ
  event_type : String
  row_index : Nat
  deriving DecidableEq, Repr

/-- The row loop of load_excel_events from edf2edfplus.py, carrying the
running row index: column C is the timestamp cell, column D the label
cell (both already str()-converted); a row is retained when the stripped
timestamp contains a colon and the stripped label is none of nan, None
or empty; retained rows become Events, with the relative time computed
from the reference time when one is given. -/
def load_excel_rows (reference_time : Option ℚ) : Nat → List (String × String) → List Event
  | _, [] => []
  | i, row :: rest =>
    let time_str := pyStrip row.1
    let event_type := pyStrip row.2
    let has_time := time_str.toList.contains ':'
    let valid_event :=
      !(event_type == "nan" || event_type == "None" || event_type == "") &&
        !(pyStrip event_type == "")
    if has_time && valid_event then
      { time := time_str
        time_seconds := parse_time_to_seconds time_str
        relative_time := reference_time.map (fun r => parse_time_to_seconds time_str - r)
        event_type := event_type
        row_index := i } :: load_excel_rows reference_time (i + 1) rest
    else load_excel_rows reference_time (i + 1) rest

/-- load_excel_events from edf2edfplus.py, starting the dataframe row
index at 0 (the model starts from the cleaned dataframe rows; the
source's optional removal of one leading all-empty row happens before
these indices are assigned). -/
def load_excel_events (rows : List (String × String)) (reference_time : Option ℚ) : List Event :=
  load_excel_rows reference_time 0 rows

/-- Python int() applied to a float: truncation toward zero. -/
def pyInt (x : ℚ) : Int :=
  if 0 ≤ x then Int.floor x else Int.ceil x

/-- Modelled from the spec: the target sample count the spec prescribes,
namely round of header_duration times sample_rate, rounded to the
nearest integer. -/
def specRound (x : ℚ) : Int := round x

/-- The duration repair decision of convert_edf_to_edfplus. -/
inductive ReconAction
  | keep
  | pad
  | truncate
  deriving DecidableEq, Repr

/-- Result of the duration reconciliation step of convert_edf_to_edfplus:
the decision, the repaired per-channel data, and zero_padding_start
(set exactly when padding was applied, to the original measured
duration). -/
structure ReconResult where
  action : ReconAction
  data : List (List ℚ)
  zero_padding_start : Option ℚ
  deriving Repr

/-- The duration reconciliation of convert_edf_to_edfplus (steps at
source lines 524 to 559): when the measured and header durations differ
by more than 0.01 s, compute target_samples with int() of
header_duration times sampling rate, then either zero-pad every channel
up to target (recording zero_padding_start as the original measured
duration) or truncate every channel down to target; otherwise leave the
data alone.  current_samples is the common row length of the data
matrix. -/
def reconcile (header_duration measured_duration sfreq : ℚ)
    (data : List (List ℚ)) : ReconResult :=
  if |measured_duration - header_duration| > 1 / 100 then
    let target := pyInt (header_duration * sfreq)
    let current : Nat := ((data.head?).map List.length).getD 0
    if target > (current : Int) then
      { action := ReconAction.pad
        data := data.map (fun ch => ch ++ List.replicate (target - (current : Int)).toNat (0 : ℚ))
        zero_padding_start := some measured_duration }
    else if target < (current : Int) then
      { action := ReconAction.truncate
        data := data.map (fun ch => ch.take target.toNat)
        zero_padding_start := none }
    else
      { action := ReconAction.keep, data := data, zero_padding_start := none }
  else
    { action := ReconAction.keep, data := data, zero_padding_start := none }

/-- Errors arising in the physical scaling loop of
create_mne_raw_from_edf_data.  zeroDivisionError models the Python
ZeroDivisionError raised by the scale computation when digital_max
equals digital_min; degenerateCalibration is the explicit configuration
error the specification prescribes (it does not occur in the source). -/
inductive ScaleError
  | zeroDivisionError
  | degenerateCalibration
  deriving DecidableEq, Repr

/-- The per-channel body of the scaling loop of
create_mne_raw_from_edf_data (source lines 303 to 307): when
physical_max differs from physical_min, scale and offset are computed
and applied to every sample; computing scale divides by
digital_max - digital_min, which in Python raises ZeroDivisionError when
that difference is zero; when physical_max equals physical_min the
channel is left as the int16 samples cast to float. -/
def scaleChannel (physical_min physical_max : ℚ) (digital_min digital_max : Int)
    (row : List Int) : Except ScaleError (List ℚ) :=
  if physical_max ≠ physical_min then
    if ((digital_max : ℚ) - (digital_min : ℚ)) = 0 then
      Except.error ScaleError.zeroDivisionError
    else
      let scale := (physical_max - physical_min) / ((digital_max : ℚ) - (digital_min : ℚ))
      let offset := physical_min - scale * (digital_min : ℚ)
      Except.ok (row.map (fun v => (v : ℚ) * scale + offset))
  else
    Except.ok (row.map (fun v => (v : ℚ)))

/-- The whole scaling loop of create_mne_raw_from_edf_data over the
channel headers paired with the data rows; the first Python exception
aborts the loop, modelled by the Except short-circuit of mapM. -/
def applyScaling (channels : List ((ℚ × ℚ) × (Int × Int))) (data : List (List Int)) :
    Except ScaleError (List (List ℚ)) :=
  (channels.zip data).mapM
    (fun p => scaleChannel p.1.1.1 p.1.1.2 p.1.2.1 p.1.2.2 p.2)

/-- Writing one per-record block into a channel row of the pre-allocated
grid: data at positions start up to start plus the block length is
replaced, everything else kept. -/
def writeSlice (row : List Int) (start : Nat) (block : List Int) : List Int :=
  row.take start ++ block ++ row.drop (start + block.length)

/-- One signal read of the record loop of read_edf_file_direct (source
lines 263 to 279).  The stream is the list of 16-bit sample values still
available.  A declared block of zero samples is skipped without reading.
Otherwise struct.unpack of the bytes returned by f.read raises
struct.error whenever fewer values than declared remain (so the
source's own short-read warning branch is unreachable); a complete block
is written into the channel row, unless it would overflow the
pre-allocated width, in which case it is dropped with a warning. -/
def decodeStep (max_samples rec sig samples : Nat)
    (st : List (List Int) × List Int) : Except Unit (List (List Int) × List Int) :=
  if samples > 0 then
    if st.2.length < samples then Except.error ()
    else
      let block := st.2.take samples
      let rest := st.2.drop samples
      if (rec + 1) * samples ≤ max_samples then
        Except.ok (st.1.set sig (writeSlice ((st.1[sig]?).getD []) (rec * samples) block), rest)
      else Except.ok (st.1, rest)
  else Except.ok st

/-- The data portion of read_edf_file_direct: pre-allocate an
nsignals-by-max_samples grid of zeros, then read record by record, for
each signal in header order, its declared samples_per_record values. -/
def read_edf_data (records : Nat) (samples_per_record : List Nat) (stream : List Int) :
    Except Unit (List (List Int)) :=
  let max_samples := ((samples_per_record.map (fun s => records * s)).max?).getD 0
  let init := samples_per_record.map (fun _ => List.replicate max_samples (0 : Int))
  (((List.range records).foldlM (fun st rec =>
      (samples_per_record.enum).foldlM
        (fun st2 p => decodeStep max_samples rec p.1 p.2 st2) st)
      (init, stream)).map Prod.fst : Except Unit (List (List Int)))

/-- State of the event classification loop of convert_edf_to_edfplus
(source lines 609 to 658): the accumulated annotation onsets, durations
and descriptions, the per-event status strings, and the fallback
reference time (a Python local that is only ever assigned on the
fallback path for events lacking a relative time; it starts out
unassigned in the source, which is modelled by an arbitrary initial
value of 0 -- the path reading it before assignment is unreachable when
all events carry a relative time). -/
structure ClassifyState where
  onsets : List ℚ
  durations : List ℚ
  descriptions : List String
  event_status : List String
  ref_time : ℚ
  deriving DecidableEq, Repr

/-- Initial classification state: empty accumulators. -/
def initClassifyState : ClassifyState :=
  { onsets := [], durations := [], descriptions := [], event_status := [], ref_time := 0 }

/-- Zero-padding membership test of the classification loop:
zero_padding_start is not None and the relative time is at or past it. -/
def inZeroPadding (zero_padding_start : Option ℚ) (rel : ℚ) : Bool :=
  match zero_padding_start with
  | some z => decide (z ≤ rel)
  | none => false

/-- One iteration of the event classification loop of
convert_edf_to_edfplus: compute the relative time (stored value, or the
fallback against the first-event reference), then either mark the event
EXCLUDED_ZERO_PADDING (padding applied and the offset at or past
zero_padding_start, nothing emitted), or emit it as INCLUDED with the
onset clamped down to the final duration when it exceeds it by at most
the 0.1 s tolerance, or mark it EXCLUDED_OUT_OF_RANGE (nothing
emitted). -/
def classifyStep (zero_padding_start : Option ℚ) (actual_duration : ℚ)
    (st : ClassifyState) (e : Event) : ClassifyState :=
  let pr : ℚ × ℚ :=
    match e.relative_time with
    | some r => (r, st.ref_time)
    | none =>
      if st.onsets.isEmpty then (0, e.time_seconds)
      else (e.time_seconds - st.ref_time, st.ref_time)
  let rel := pr.1
  let st1 := { st with ref_time := pr.2 }
  if inZeroPadding zero_padding_start rel then
    { st1 with event_status := st1.event_status ++ ["EXCLUDED_ZERO_PADDING"] }
  else if 0 ≤ rel ∧ rel ≤ actual_duration + 1 / 10 then
    let rel2 := if actual_duration < rel then actual_duration else rel
    { st1 with
      onsets := st1.onsets ++ [rel2]
      durations := st1.durations ++ [(0 : ℚ)]
      descriptions := st1.descriptions ++ [e.event_type]
      event_status := st1.event_status ++ ["INCLUDED"] }
  else
    { st1 with event_status := st1.event_status ++ ["EXCLUDED_OUT_OF_RANGE"] }

/-- The whole classification loop over the (sorted) event list. -/
def classifyEvents (zero_padding_start : Option ℚ) (actual_duration : ℚ)
    (events : List Event) : ClassifyState :=
  events.foldl (classifyStep zero_padding_start actual_duration) initClassifyState

/-- Sort key of the event sort in convert_edf_to_edfplus:
x.get of relative_time with the absolute time as default. -/
def sortKey (e : Event) : ℚ :=
  e.relative_time.getD e.time_seconds

/-- Stable insertion of an event into an already sorted list, placing it
after every element whose key is less than or equal to its own. -/
def insertSorted (e : Event) : List Event → List Event
  | [] => [e]
  | x :: xs => if sortKey x ≤ sortKey e then x :: insertSorted e xs else e :: x :: xs

/-- Model of the stable ascending Python list.sort by sortKey. -/
def sortEvents : List Event → List Event
  | [] => []
  | x :: xs => insertSorted x (sortEvents xs)

/-- The empty Python dict keyed by event position. -/
def emptyMapping : Nat → Option String := fun _ => none

/-- Python dict assignment. -/
def mappingSet (m : Nat → Option String) (k : Nat) (v : String) : Nat → Option String :=
  fun k2 => if k2 = k then some v else m k2

/-- Step 4 of convert_edf_to_edfplus (source lines 575 to 582): load every
spreadsheet file's events against the one reference time, concatenate
them into all_events, and record excel_event_mapping from the position
len(all_events) - len(events) + events.index(event) of each event in the
pre-sort concatenation to its source filename. -/
def load_all (files : List (String × List (String × String))) (reference_time : Option ℚ) :
    List Event × (Nat → Option String) :=
  files.foldl
    (fun acc file =>
      let events := load_excel_events file.2 reference_time
      let all := acc.1 ++ events
      let mapping := events.foldl
        (fun m e => mappingSet m (all.length - events.length + events.indexOf e) file.1)
        acc.2
      (all, mapping))
    ([], emptyMapping)

/-- Step 6.5 of convert_edf_to_edfplus (source lines 674 to 684): pair
each status with the event at the same position of the sorted list and
with the filename the pre-sort mapping holds at that position, producing
the flat write-back batch of (file, row index, status) cell updates that
update_excel_event_status then applies per file. -/
def buildStatusUpdates (sorted_events : List Event) (statuses : List String)
    (mapping : Nat → Option String) : List (String × Nat × String) :=
  statuses.enum.filterMap
    (fun p =>
      match sorted_events[p.1]?, mapping p.1 with
      | some e, some f => some (f, e.row_index, p.2)
      | _, _ => none)

/-- Everything convert_edf_to_edfplus does with the loaded events:
load and concatenate (recording the position-to-file mapping), sort
ascending by relative time, classify each event in sorted order, and
assemble the status write-back batch. -/
structure PipelineResult where
  all_events : List Event
  onsets : List ℚ
  descriptions : List String
  event_status : List String
  status_updates : List (String × Nat × String)
  deriving DecidableEq, Repr

/-- The event-processing pipeline of convert_edf_to_edfplus, from the
matched spreadsheet files to the emitted annotations and the status
write-back batch. -/
def processEvents (files : List (String × List (String × String)))
    (reference_time : Option ℚ) (zero_padding_start : Option ℚ)
    (actual_duration : ℚ) : PipelineResult :=
  let la := load_all files reference_time
  let sorted := sortEvents la.1
  let st := classifyEvents zero_padding_start actual_duration sorted
  { all_events := sorted
    onsets := st.onsets
    descriptions := st.descriptions
    event_status := st.event_status
    status_updates := buildStatusUpdates sorted st.event_status la.2 }

/-- Terminal outcomes of convert_edf_to_edfplus as far as event handling
is concerned: no matching spreadsheet file at all (the source returns
False), matching files but no loaded events (the source returns True,
exporting the container annotation-free exactly when an output path was
supplied), or events processed (the source returns True). -/
inductive ConvertOutcome
  | noExcelFiles
  | noEvents (exported_without_annotations : Bool)
  | withEvents (r : PipelineResult)
  deriving DecidableEq, Repr

/-- The control flow of convert_edf_to_edfplus around the event pipeline
(source lines 492 to 498, 584 to 589 and onward): fail when no
spreadsheet file matches; succeed annotation-free when files match but
hold no events; otherwise run the pipeline. -/
def convert_edf_to_edfplus_events (files : List (String × List (String × String)))
    (reference_time : Option ℚ) (zero_padding_start : Option ℚ)
    (actual_duration : ℚ) (output_file_given : Bool) : ConvertOutcome :=
  if files.isEmpty then ConvertOutcome.noExcelFiles
  else if (load_all files reference_time).1.isEmpty then
    ConvertOutcome.noEvents output_file_given
  else
    ConvertOutcome.withEvents
      (processEvents files reference_time zero_padding_start actual_duration)

/-- The boolean value convert_edf_to_edfplus returns for each outcome. -/
def convertSuccess : ConvertOutcome → Bool
  | ConvertOutcome.noExcelFiles => false
  | ConvertOutcome.noEvents _ => true
  | ConvertOutcome.withEvents _ => true

/-- Concrete fixture: the event loaded from the single row of file A
(timestamp 00:00:10, label a) against anchor 0. -/
def evA : Event :=
  { time := "00:00:10", time_seconds := 10, relative_time := some 10,
    event_type := "a", row_index := 0 }

/-- Concrete fixture: the event loaded from the single row of file B
(timestamp 00:00:05, label b) against anchor 0. -/
def evB : Event :=
  { time := "00:00:05", time_seconds := 5, relative_time := some 5,
    event_type := "b", row_index := 0 }

/-- Concrete fixture: two matched spreadsheet files whose events
interleave under the ascending sort. -/
def filesAB : List (String × List (String × String)) :=
  [("A.xlsx", [("00:00:10", "a")]), ("B.xlsx", [("00:00:05", "b")])]

/-- Concrete fixture: file A alone. -/
def fileAOnly : List (String × List (String × String)) :=
  [("A.xlsx", [("00:00:10", "a")])]

theorem dropWhile_dropWhile {α : Type} (p : α → Bool) (l : List α) :
    (l.dropWhile p).dropWhile p = l.dropWhile p := by
  induction l with
  | nil => rfl
  | cons x xs ih =>
    by_cases h : p x
    · simp [List.dropWhile_cons, h, ih]
    · simp [List.dropWhile_cons, h]

theorem dropWhile_head?_false {α : Type} (p : α → Bool) (l : List α) (a : α)
    (h : (l.dropWhile p).head? = some a) : p a = false := by
  induction l with
  | nil => simp at h
  | cons x xs ih =>
    rw [List.dropWhile_cons] at h
    by_cases hx : p x = true
    · rw [if_pos hx] at h
      exact ih h
    · rw [if_neg hx] at h
      simp at h
      rw [← h, ← Bool.not_eq_true]
      exact hx

theorem dropWhile_eq_self_of_head? {α : Type} (p : α → Bool) (l : List α)
    (h : ∀ a, l.head? = some a → p a = false) : l.dropWhile p = l := by
  cases l with
  | nil => rfl
  | cons x xs =>
    rw [List.dropWhile_cons, if_neg]
    simp [h x rfl]

theorem getLast?_dropWhile {α : Type} (p : α → Bool) (l : List α)
    (h : l.dropWhile p ≠ []) : (l.dropWhile p).getLast? = l.getLast? := by
  obtain ⟨t, ht⟩ := List.dropWhile_suffix (l := l) p
  conv_rhs => rw [← ht]
  rw [List.getLast?_append_of_ne_nil t h]

theorem stripIdem {α : Type} (p : α → Bool) (l : List α) :
    ((((((l.dropWhile p).reverse.dropWhile p).reverse).dropWhile p).reverse).dropWhile p).reverse =
      ((l.dropWhile p).reverse.dropWhile p).reverse := by
  have S1 : (((l.dropWhile p).reverse.dropWhile p).reverse).dropWhile p =
      ((l.dropWhile p).reverse.dropWhile p).reverse := by
    apply dropWhile_eq_self_of_head?
    intro a ha
    rcases eq_or_ne ((l.dropWhile p).reverse.dropWhile p) [] with hnil | hne
    · rw [hnil] at ha
      simp at ha
    · rw [List.head?_reverse, getLast?_dropWhile _ _ hne, List.getLast?_reverse] at ha
      exact dropWhile_head?_false p l a ha
  rw [S1, List.reverse_reverse, dropWhile_dropWhile]

theorem pyStrip_toList (s : String) :
    (pyStrip s).toList =
      ((s.toList.dropWhile Char.isWhitespace).reverse.dropWhile Char.isWhitespace).reverse := rfl

theorem pyStrip_idem (s : String) : pyStrip (pyStrip s) = pyStrip s :=
  congrArg String.mk (stripIdem Char.isWhitespace s.toList)

theorem classifyStep_status_length (zps : Option ℚ) (dur : ℚ) (st : ClassifyState) (e : Event) :
    (classifyStep zps dur st e).event_status.length = st.event_status.length + 1 := by
  unfold classifyStep
  rcases e.relative_time with _ | r <;> dsimp only <;> split_ifs <;> simp

theorem classifyEvents_status_length (zps : Option ℚ) (dur : ℚ) (events : List Event) :
    (classifyEvents zps dur events).event_status.length = events.length := by
  suffices h : ∀ st : ClassifyState,
      (events.foldl (classifyStep zps dur) st).event_status.length =
        st.event_status.length + events.length by
    simpa [classifyEvents, initClassifyState] using h initClassifyState
  induction events with
  | nil => intro st; simp
  | cons e es ih =>
    intro st
    rw [List.foldl_cons, ih (classifyStep zps dur st e), classifyStep_status_length]
    simp [List.length_cons]
    omega

theorem reconcile_pad_eq (hd md sf : ℚ) (data : List (List ℚ))
    (h1 : |md - hd| > 1 / 100)
    (h2 : pyInt (hd * sf) > ((((data.head?).map List.length).getD 0 : Nat) : Int)) :
    reconcile hd md sf data =
      { action := ReconAction.pad
        data := data.map (fun ch => ch ++
          List.replicate
            (pyInt (hd * sf) - ((((data.head?).map List.length).getD 0 : Nat) : Int)).toNat
            (0 : ℚ))
        zero_padding_start := some md } := by
  rw [reconcile, if_pos h1, if_pos h2]

theorem reconcile_truncate_eq (hd md sf : ℚ) (data : List (List ℚ))
    (h1 : |md - hd| > 1 / 100)
    (h2 : pyInt (hd * sf) < ((((data.head?).map List.length).getD 0 : Nat) : Int)) :
    reconcile hd md sf data =
      { action := ReconAction.truncate
        data := data.map (fun ch => ch.take (pyInt (hd * sf)).toNat)
        zero_padding_start := none } := by
  rw [reconcile, if_pos h1, if_neg (by omega), if_pos h2]

theorem reconcile_action_pad_inv (hd md sf : ℚ) (data : List (List ℚ))
    (h : (reconcile hd md sf data).action = ReconAction.pad) :
    |md - hd| > 1 / 100 ∧
      pyInt (hd * sf) > ((((data.head?).map List.length).getD 0 : Nat) : Int) := by
  by_cases h1 : |md - hd| > 1 / 100
  · by_cases h2 : pyInt (hd * sf) > ((((data.head?).map List.length).getD 0 : Nat) : Int)
    · exact ⟨h1, h2⟩
    · exfalso
      by_cases h3 : pyInt (hd * sf) < ((((data.head?).map List.length).getD 0 : Nat) : Int)
      · rw [reconcile_truncate_eq hd md sf data h1 h3] at h
        simp at h
      · rw [reconcile, if_pos h1, if_neg h2, if_neg h3] at h
        simp at h
  · rw [reconcile, if_neg h1] at h
    simp at h

/-- C8: for every header whose start date splits as DD.MM.YY and start
time as HH.MM.SS with integer fields, filename derivation applies the
century pivot (two-digit year below 50 maps to 2000 plus YY, otherwise
1900 plus YY), assembles the 8-digit date token and the 4-digit time
token with seconds discarded, and returns patient_YYYYMMDD_HHMM.edf; in
particular date 01.07.13, time 23.59.00 and patient id 5774131 yield
5774131_20130701_2359.edf. -/
theorem C8_filename_derivation :
    (∀ (patient_id date_str time_str dS mS yS hS miS sS : String) (d m y h mi : Int),
      pySplit '.' date_str = [dS, mS, yS] →
      pySplit '.' time_str = [hS, miS, sS] →
      pyIntStr? dS = some d → pyIntStr? mS = some m → pyIntStr? yS = some y →
      pyIntStr? hS = some h → pyIntStr? miS = some mi →
      generate_correct_filename_core patient_id date_str time_str =
        some (patient_id ++ "_" ++
          (formatIntPad 4 (if y < 50 then 2000 + y else 1900 + y) ++
            formatIntPad 2 m ++ formatIntPad 2 d ++ "_" ++
            formatIntPad 2 h ++ formatIntPad 2 mi) ++ ".edf")) ∧
    generate_correct_filename_core "5774131" "01.07.13" "23.59.00" =
      some "5774131_20130701_2359.edf" := by
  constructor
  · intro patient_id date_str time_str dS mS yS hS miS sS d m y h mi
      hdate htime hd hm hy hh hmi
    simp [generate_correct_filename_core, convert_edf_date_time, hdate, htime,
      hd, hm, hy, hh, hmi]
  · decide

/-- Witness for C8 at a concrete 19xx-pivot header. -/
theorem C8_filename_derivation_witness :
    generate_correct_filename_core "99" "02.03.77" "04.05.06" =
      some ("99" ++ "_" ++
        (formatIntPad 4 (if (77 : Int) < 50 then 2000 + 77 else 1900 + 77) ++
          formatIntPad 2 3 ++ formatIntPad 2 2 ++ "_" ++
          formatIntPad 2 4 ++ formatIntPad 2 5) ++ ".edf") :=
  C8_filename_derivation.1 "99" "02.03.77" "04.05.06" "02" "03" "77" "04" "05" "06"
    2 3 77 4 5 (by decide) (by decide) (by decide) (by decide) (by decide)
    (by decide) (by decide)

/-- C9: for every channel whose header has physical_max equal to
physical_min, the scaling transform is the identity on that channel: no
division is performed and the output equals the stored integer samples
cast to real, for every sample row. -/
theorem C9_degenerate_physical_passthrough (physical_min physical_max : ℚ)
    (digital_min digital_max : Int) (row : List Int)
    (h : physical_max = physical_min) :
    scaleChannel physical_min physical_max digital_min digital_max row =
      Except.ok (row.map (fun v => (v : ℚ))) := by
  simp [scaleChannel, h]

/-- Witness for C9 at a concrete channel. -/
theorem C9_degenerate_physical_passthrough_witness :
    scaleChannel 5 5 0 7 [2, -3] = Except.ok ([2, -3].map (fun v => (v : ℚ))) :=
  C9_degenerate_physical_passthrough 5 5 0 7 [2, -3] rfl

/-- C4 counterexample: a channel with physical_max distinct from
physical_min and digital_max equal to digital_min makes the scaling loop
raise the plain division-by-zero error of the Python division, not an
explicit DegenerateCalibration configuration error, contrary to the
claim. -/
theorem C4_counterexample :
    scaleChannel 0 1 0 0 [3] = Except.error ScaleError.zeroDivisionError ∧
    (Except.error ScaleError.zeroDivisionError : Except ScaleError (List ℚ)) ≠
      Except.error ScaleError.degenerateCalibration := by
  constructor
  · norm_num [scaleChannel]
  · simp

/-- C4 amended: for every channel with physical_max distinct from
physical_min and digital_max equal to digital_min, the scaling transform
raises the ZeroDivisionError of the scale division (the failure is
surfaced rather than infinities or NaNs propagating into the output),
but no explicit DegenerateCalibration error exists in the code. -/
theorem C4_zero_division_surfaced (physical_min physical_max : ℚ)
    (digital_min digital_max : Int) (row : List Int)
    (hp : physical_max ≠ physical_min) (hd : digital_max = digital_min) :
    scaleChannel physical_min physical_max digital_min digital_max row =
      Except.error ScaleError.zeroDivisionError := by
  subst hd
  simp [scaleChannel, hp]

/-- Witness for the amended C4 at a concrete channel. -/
theorem C4_zero_division_surfaced_witness :
    scaleChannel 0 1 0 0 [3] = Except.error ScaleError.zeroDivisionError :=
  C4_zero_division_surfaced 0 1 0 0 [3] (by norm_num) rfl

/-- C3: at a concrete truncated stream (one record, one signal declaring
two samples per record, only one sample value available) the decoder
raises the struct.error of struct.unpack and aborts instead of dropping
the block and completing; on the complete stream the same decode
succeeds and returns the filled grid. -/
theorem C3_truncated_stream_error :
    read_edf_data 1 [2] [5] = Except.error () ∧
    read_edf_data 1 [2] [5, 6] = Except.ok [[5, 6]] := by
  constructor
  · rfl
  · rfl

/-- C7 counterexample: with no matching spreadsheet file there are no
matching event rows at all, yet convert_edf_to_edfplus returns False
(reports failure) and never re-emits the container, contrary to the
claim. -/
theorem C7_counterexample :
    convert_edf_to_edfplus_events [] (some 0) none 10 true =
      ConvertOutcome.noExcelFiles ∧
    convertSuccess (convert_edf_to_edfplus_events [] (some 0) none 10 true) = false := by
  constructor
  · rfl
  · rfl

/-- C7 amended: when at least one spreadsheet file matches but no event
row is loaded from any of them, the conversion reports success and the
container is exported annotation-free exactly when an output path was
supplied; when no spreadsheet file matches at all the conversion reports
failure instead. -/
theorem C7_no_events_success (files : List (String × List (String × String)))
    (reference_time zps : Option ℚ) (dur : ℚ) (output_file_given : Bool)
    (hne : files ≠ []) (hempty : (load_all files reference_time).1 = []) :
    convert_edf_to_edfplus_events files reference_time zps dur output_file_given =
      ConvertOutcome.noEvents output_file_given ∧
    convertSuccess
      (convert_edf_to_edfplus_events files reference_time zps dur output_file_given) = true := by
  have h1 : files.isEmpty = false := by
    simpa [List.isEmpty_iff] using hne
  have h2 : (load_all files reference_time).1.isEmpty = true := by
    simp [hempty]
  constructor
  · simp [convert_edf_to_edfplus_events, h1, h2]
  · simp [convert_edf_to_edfplus_events, h1, h2, convertSuccess]

/-- Witness for the amended C7: one matching file whose single row has
no timestamp. -/
theorem C7_no_events_success_witness :
    convert_edf_to_edfplus_events [("A.xlsx", [("", "")])] (some 0) none 10 true =
      ConvertOutcome.noEvents true ∧
    convertSuccess
      (convert_edf_to_edfplus_events [("A.xlsx", [("", "")])] (some 0) none 10 true) = true :=
  C7_no_events_success [("A.xlsx", [("", "")])] (some 0) none 10 true
    (by decide) (by decide)

/-- C1: for every retained event carrying a relative offset, the
classification step follows the trichotomy of the claim: with padding
applied and the offset at or past zero_padding_start the status is
EXCLUDED_ZERO_PADDING and nothing is emitted; otherwise with the offset
inside 0 to final duration plus 0.1 the status is INCLUDED and an
annotation is emitted whose onset is the offset clamped down to the
final duration when it exceeds it; otherwise the status is
EXCLUDED_OUT_OF_RANGE and nothing is emitted. -/
theorem C1_classification_trichotomy (zps : Option ℚ) (dur : ℚ)
    (st : ClassifyState) (e : Event) (r : ℚ) (hrel : e.relative_time = some r) :
    ((∃ z, zps = some z ∧ z ≤ r) →
      classifyStep zps dur st e =
        { st with event_status := st.event_status ++ ["EXCLUDED_ZERO_PADDING"] }) ∧
    ((∀ z, zps = some z → r < z) → 0 ≤ r → r ≤ dur + 1 / 10 →
      classifyStep zps dur st e =
        { st with
          onsets := st.onsets ++ [if dur < r then dur else r]
          durations := st.durations ++ [(0 : ℚ)]
          descriptions := st.descriptions ++ [e.event_type]
          event_status := st.event_status ++ ["INCLUDED"] }) ∧
    ((∀ z, zps = some z → r < z) → (r < 0 ∨ dur + 1 / 10 < r) →
      classifyStep zps dur st e =
        { st with event_status := st.event_status ++ ["EXCLUDED_OUT_OF_RANGE"] }) := by
  refine ⟨?_, ?_, ?_⟩
  · rintro ⟨z, rfl, hz⟩
    simp [classifyStep, hrel, inZeroPadding, hz]
  · intro hnp h0 h1
    have hzp : inZeroPadding zps r = false := by
      cases zps with
      | none => rfl
      | some z => simp [inZeroPadding, not_le.mpr (hnp z rfl)]
    simp only [classifyStep, hrel, hzp, Bool.false_eq_true, if_false]
    rw [if_pos ⟨h0, h1⟩]
  · intro hnp hout
    have hzp : inZeroPadding zps r = false := by
      cases zps with
      | none => rfl
      | some z => simp [inZeroPadding, not_le.mpr (hnp z rfl)]
    have hrange : ¬(0 ≤ r ∧ r ≤ dur + 1 / 10) := by
      rcases hout with h | h
      · exact fun hc => absurd hc.1 (not_le.mpr h)
      · exact fun hc => absurd hc.2 (not_le.mpr h)
    simp only [classifyStep, hrel, hzp, Bool.false_eq_true, if_false]
    rw [if_neg hrange]

/-- Witness for C1: an event 1 s past the padding boundary is marked
EXCLUDED_ZERO_PADDING without emission. -/
theorem C1_classification_trichotomy_witness :
    classifyStep (some 5) 4 initClassifyState
        { time := "00:00:06", time_seconds := 6, relative_time := some 6,
          event_type := "a", row_index := 0 } =
      { initClassifyState with event_status := ["EXCLUDED_ZERO_PADDING"] } := by
  have h := (C1_classification_trichotomy (some 5) 4 initClassifyState
      { time := "00:00:06", time_seconds := 6, relative_time := some 6,
        event_type := "a", row_index := 0 } 6 rfl).1 ⟨5, rfl, by norm_num⟩
  simpa [initClassifyState] using h

/-- C6: for every reconciliation that pads, zero_padding_start is the
original measured duration, and beyond the original per-channel sample
count every channel holds exactly zeros (dropping the original prefix of
every repaired channel leaves only zero samples). -/
theorem C6_padding_zeros (hd md sf : ℚ) (data : List (List ℚ)) (current : Nat)
    (hcur : current = ((data.head?).map List.length).getD 0)
    (hrect : ∀ ch ∈ data, ch.length = current)
    (hpad : (reconcile hd md sf data).action = ReconAction.pad) :
    (reconcile hd md sf data).zero_padding_start = some md ∧
    (reconcile hd md sf data).data.map (fun ch => ch.drop current) =
      List.replicate data.length
        (List.replicate ((pyInt (hd * sf)).toNat - current) (0 : ℚ)) := by
  obtain ⟨h1, h2⟩ := reconcile_action_pad_inv hd md sf data hpad
  rw [← hcur] at h2
  rw [reconcile_pad_eq hd md sf data h1 (by rw [← hcur]; exact h2)]
  refine ⟨rfl, ?_⟩
  rw [← hcur, List.map_map, List.map_eq_replicate_iff]
  intro ch hch
  have hk : (pyInt (hd * sf) - (current : Int)).toNat = (pyInt (hd * sf)).toNat - current := by
    omega
  simp only [Function.comp_apply]
  rw [← hrect ch hch, List.drop_left, hrect ch hch, hk]

/-- Witness for C6: header 2 s, measured 1 s, one channel of one sample,
padded to two samples with the tail zero. -/
theorem C6_padding_zeros_witness :
    (reconcile 2 1 1 [[(5 : ℚ)]]).zero_padding_start = some 1 ∧
    (reconcile 2 1 1 [[(5 : ℚ)]]).data.map (fun ch => ch.drop 1) =
      List.replicate 1 (List.replicate ((pyInt (2 * 1)).toNat - 1) (0 : ℚ)) := by
  have h := C6_padding_zeros 2 1 1 [[(5 : ℚ)]] 1 (by decide) (by decide)
    (by rw [reconcile_pad_eq 2 1 1 [[(5 : ℚ)]] (by norm_num) (by norm_num [pyInt])])
  simpa using h

/-- C5 amended: whenever the measured and header durations differ by more
than 0.01 s, the code computes the target sample count with int() of
header_duration times sample_rate, truncating toward zero rather than
rounding to nearest, and whenever the resulting action is pad or
truncate every repaired channel has exactly that many samples. -/
theorem C5_target_truncation_length (hd md sf : ℚ) (data : List (List ℚ)) (current : Nat)
    (hcur : current = ((data.head?).map List.length).getD 0)
    (hrect : ∀ ch ∈ data, ch.length = current)
    (hdiff : |md - hd| > 1 / 100) (hnn : 0 ≤ hd * sf)
    (hact : (reconcile hd md sf data).action = ReconAction.pad ∨
            (reconcile hd md sf data).action = ReconAction.truncate) :
    (reconcile hd md sf data).data.map List.length =
      List.replicate data.length (pyInt (hd * sf)).toNat := by
  have htnn : 0 ≤ pyInt (hd * sf) := by
    rw [pyInt, if_pos hnn]
    exact Int.floor_nonneg.mpr hnn
  rcases lt_trichotomy (pyInt (hd * sf)) ((current : Int)) with hlt | heq | hgt
  · rw [reconcile_truncate_eq hd md sf data hdiff (by rw [← hcur]; exact hlt)]
    rw [List.map_map, List.map_eq_replicate_iff]
    intro ch hch
    simp only [Function.comp_apply, List.length_take, hrect ch hch]
    omega
  · exfalso
    have hkeep : reconcile hd md sf data =
        { action := ReconAction.keep, data := data, zero_padding_start := none } := by
      rw [reconcile, if_pos hdiff, if_neg (by rw [← hcur]; omega),
        if_neg (by rw [← hcur]; omega)]
    rcases hact with h | h <;> rw [hkeep] at h <;> simp at h
  · rw [reconcile_pad_eq hd md sf data hdiff (by rw [← hcur]; exact hgt)]
    rw [List.map_map, List.map_eq_replicate_iff]
    intro ch hch
    simp only [Function.comp_apply, List.length_append, List.length_replicate, hrect ch hch]
    omega

/-- Witness for the amended C5 in the pad branch. -/
theorem C5_target_truncation_length_witness :
    (reconcile 2 1 1 [[(5 : ℚ)]]).data.map List.length =
      List.replicate 1 (pyInt (2 * 1)).toNat := by
  have h := C5_target_truncation_length 2 1 1 [[(5 : ℚ)]] 1 (by decide) (by decide)
    (by norm_num) (by norm_num)
    (Or.inl (by rw [reconcile_pad_eq 2 1 1 [[(5 : ℚ)]] (by norm_num) (by norm_num [pyInt])]))
  simpa using h

/-- C5 counterexample: header duration 7.9 s at 1 Hz against 5 measured
samples triggers padding with target int(7.9) = 7 samples per channel,
while round(7.9) = 8, so the repaired channel does not have
round(header_duration times sample_rate) samples. -/
theorem C5_counterexample :
    |(5 : ℚ) - 79 / 10| > 1 / 100 ∧
    (reconcile (79 / 10) 5 1 [[0, 0, 0, 0, 0]]).action = ReconAction.pad ∧
    (reconcile (79 / 10) 5 1 [[0, 0, 0, 0, 0]]).data.map List.length = [7] ∧
    specRound (79 / 10 * 1) = 8 := by
  have habs : |(5 : ℚ) - 79 / 10| > 1 / 100 := by
    rw [gt_iff_lt, lt_abs]
    right
    norm_num
  have hpad := reconcile_pad_eq (79 / 10) 5 1 [[0, 0, 0, 0, 0]]
    habs (by norm_num [pyInt])
  refine ⟨habs, ?_, ?_, ?_⟩
  · rw [hpad]
  · rw [hpad]
    norm_num [pyInt]
    decide
  · rw [specRound, round_eq]
    norm_num

theorem load_excel_rows_mem (reference_time : Option ℚ) (rows : List (String × String))
    (k i : Nat) (c d : String) (hrow : rows[i]? = some (c, d))
    (htime : (pyStrip c).toList.contains ':' = true)
    (hvalid : (!(pyStrip d == "nan" || pyStrip d == "None" || pyStrip d == "") &&
        !(pyStrip (pyStrip d) == "")) = true) :
    ({ time := pyStrip c
       time_seconds := parse_time_to_seconds (pyStrip c)
       relative_time := reference_time.map (fun r => parse_time_to_seconds (pyStrip c) - r)
       event_type := pyStrip d
       row_index := k + i } : Event) ∈ load_excel_rows reference_time k rows := by
  induction rows generalizing k i with
  | nil => simp at hrow
  | cons row rest ih =>
    cases i with
    | zero =>
      have hrow0 : row = (c, d) := by simpa using hrow
      subst hrow0
      simp only [load_excel_rows]
      split
      · exact List.mem_cons_self _ _
      · exfalso
        rename_i hfalse
        apply hfalse
        simp only [Bool.and_eq_true] at hvalid ⊢
        exact ⟨htime, hvalid⟩
    | succ j =>
      have hrow2 : rest[j]? = some (c, d) := by simpa using hrow
      have hmem := ih (k + 1) j hrow2
      have heq : (k + 1) + j = k + (j + 1) := by omega
      rw [heq] at hmem
      simp only [load_excel_rows]
      split
      · exact List.mem_cons_of_mem _ hmem
      · exact hmem

/-- C10: a timestamp cell containing a colon but fewer than three
colon-separated fields parses to 0.0 seconds; such a row with a valid
label is retained by load_excel_events as an event with absolute time
0.0 and relative offset 0.0 minus the anchor; and the classification
loop records exactly one status per retained event, so the row is
classified and receives a write-back status like any other retained
row. -/
theorem C10_short_timestamp_retained :
    (∀ s : String, s.toList.contains ':' = true → (pySplit ':' s).length < 3 →
      parse_time_to_seconds s = 0) ∧
    (∀ (rows : List (String × String)) (i : Nat) (c d : String) (anchor : ℚ),
      rows[i]? = some (c, d) →
      (pyStrip c).toList.contains ':' = true →
      (pySplit ':' (pyStrip c)).length < 3 →
      pyStrip d ≠ "nan" → pyStrip d ≠ "None" → pyStrip d ≠ "" →
      ({ time := pyStrip c, time_seconds := 0, relative_time := some (0 - anchor),
         event_type := pyStrip d, row_index := i } : Event) ∈
        load_excel_events rows (some anchor)) ∧
    (∀ (zps : Option ℚ) (dur : ℚ) (events : List Event),
      (classifyEvents zps dur events).event_status.length = events.length) := by
  have hparse : ∀ s : String, (pySplit ':' s).length < 3 → parse_time_to_seconds s = 0 := by
    intro s hlen
    unfold parse_time_to_seconds
    rcases hsp : pySplit ':' s with _ | ⟨x1, _ | ⟨x2, _ | ⟨x3, t⟩⟩⟩
    · rfl
    · rfl
    · rfl
    · exfalso
      rw [hsp] at hlen
      simp at hlen
      omega
  refine ⟨fun s _ h => hparse s h, ?_,
    fun zps dur events => classifyEvents_status_length zps dur events⟩
  intro rows i c d anchor hrow htime hlen h1 h2 h3
  have hvalid : (!(pyStrip d == "nan" || pyStrip d == "None" || pyStrip d == "") &&
      !(pyStrip (pyStrip d) == "")) = true := by
    rw [pyStrip_idem]
    simp [h1, h2, h3]
  have hmem := load_excel_rows_mem (some anchor) rows 0 i c d hrow htime hvalid
  rw [load_excel_events]
  have hp := hparse (pyStrip c) hlen
  simpa [hp] using hmem

/-- Witness for C10 at the row with timestamp 12:34 and anchor 7. -/
theorem C10_short_timestamp_retained_witness :
    parse_time_to_seconds "12:34" = 0 ∧
    ({ time := pyStrip "12:34", time_seconds := 0, relative_time := some (0 - 7),
       event_type := pyStrip "ev", row_index := 0 } : Event) ∈
      load_excel_events [("12:34", "ev")] (some 7) ∧
    (classifyEvents none 8 []).event_status.length = ([] : List Event).length :=
  ⟨C10_short_timestamp_retained.1 "12:34" (by decide) (by decide),
    C10_short_timestamp_retained.2.1 [("12:34", "ev")] 0 "12:34" "ev" 7 rfl
      (by decide) (by decide) (by decide) (by decide) (by decide),
    C10_short_timestamp_retained.2.2 none 8 []⟩

/-- C2, evaluated at the failing input: with two spreadsheet files whose
events interleave under the ascending sort, the write-back batch routes
the INCLUDED status of file B's event to file A (whose own event, at
relative offset 10 with final duration 8, is out of range), because
excel_event_mapping is keyed by pre-sort positions while statuses and
row indices follow the sorted order; processing file A alone writes the
correct EXCLUDED_OUT_OF_RANGE status to it. -/
theorem C2_misrouted_status_updates :
    (processEvents filesAB (some 0) none 8).status_updates =
      [("A.xlsx", 0, "INCLUDED"), ("B.xlsx", 0, "EXCLUDED_OUT_OF_RANGE")] ∧
    (processEvents fileAOnly (some 0) none 8).status_updates =
      [("A.xlsx", 0, "EXCLUDED_OUT_OF_RANGE")] := by
  have hpsA : pyStrip "00:00:10" = "00:00:10" := by decide
  have hpsB : pyStrip "00:00:05" = "00:00:05" := by decide
  have hpsa : pyStrip "a" = "a" := by decide
  have hpsb : pyStrip "b" = "b" := by decide
  have hpA : parse_time_to_seconds "00:00:10" = 10 := by
    simp +decide [parse_time_to_seconds, pySplit, splitChar, pyFloat?, pyStrip,
      digitsToNat?, digitsVal]
  have hpB : parse_time_to_seconds "00:00:05" = 5 := by
    simp +decide [parse_time_to_seconds, pySplit, splitChar, pyFloat?, pyStrip,
      digitsToNat?, digitsVal]
  have hA : load_excel_events [("00:00:10", "a")] (some 0) = [evA] := by
    simp +decide [load_excel_events, load_excel_rows, evA, hpsA, hpsa, hpA]
  have hB : load_excel_events [("00:00:05", "b")] (some 0) = [evB] := by
    simp +decide [load_excel_events, load_excel_rows, evB, hpsB, hpsb, hpB]
  have hall : load_all filesAB (some 0) =
      ([evA, evB], mappingSet (mappingSet emptyMapping 0 "A.xlsx") 1 "B.xlsx") := by
    simp [load_all, filesAB, hA, hB, List.indexOf_cons_self]
  have hsort : sortEvents [evA, evB] = [evB, evA] := by
    norm_num [sortEvents, insertSorted, sortKey, evA, evB]
  have hclass : classifyEvents none 8 [evB, evA] =
      { onsets := [5], durations := [0], descriptions := ["b"],
        event_status := ["INCLUDED", "EXCLUDED_OUT_OF_RANGE"], ref_time := 0 } := by
    norm_num [classifyEvents, classifyStep, initClassifyState, inZeroPadding, evA, evB]
  have hupd : buildStatusUpdates [evB, evA] ["INCLUDED", "EXCLUDED_OUT_OF_RANGE"]
      (mappingSet (mappingSet emptyMapping 0 "A.xlsx") 1 "B.xlsx") =
      [("A.xlsx", 0, "INCLUDED"), ("B.xlsx", 0, "EXCLUDED_OUT_OF_RANGE")] := by
    decide
  have hall1 : load_all fileAOnly (some 0) = ([evA], mappingSet emptyMapping 0 "A.xlsx") := by
    simp [load_all, fileAOnly, hA, List.indexOf_cons_self]
  have hsort1 : sortEvents [evA] = [evA] := by
    simp [sortEvents, insertSorted]
  have hclass1 : classifyEvents none 8 [evA] =
      { onsets := [], durations := [], descriptions := [],
        event_status := ["EXCLUDED_OUT_OF_RANGE"], ref_time := 0 } := by
    norm_num [classifyEvents, classifyStep, initClassifyState, inZeroPadding, evA]
  have hupd1 : buildStatusUpdates [evA] ["EXCLUDED_OUT_OF_RANGE"]
      (mappingSet emptyMapping 0 "A.xlsx") = [("A.xlsx", 0, "EXCLUDED_OUT_OF_RANGE")] := by
    decide
  constructor
  · simp only [processEvents]
    rw [hall]
    rw [hsort, hclass]
    exact hupd
  · simp only [processEvents]
    rw [hall1]
    rw [hsort1, hclass1]
    exact hupd1
